import Mathlib

/-!
Shallow embedding of `src/command.rs` of the floki repository: the
`DockerCommandBuilder` spec accumulator, its argument rendering, the
`run` invocation, and the three forwarders (`enable_forward_ssh_agent`,
`enable_forward_tmux_socket`, `enable_docker_in_docker`).

Host environment variables are passed explicitly as `Option String`
arguments; the OS behaviour of spawn/wait is passed as an oracle.
Rust `std::path::Path` operations (`parent`, `file_name`) and the string
splitting functions (`split(',')`, `split_whitespace`) are modelled over
`List Char` with structural recursion so that every definition reduces in
the kernel. Whitespace is modelled as ASCII whitespace.
-/

namespace Floki

/-- Error type of floki operations.  Modelled from the spec: the crate's
`errors.rs` is not under `src/`; `src/command.rs` only names the variants
`FailedToLaunchDocker`, `FailedToCompleteDockerCommand`, `NoSshAuthSock`
and `TmuxForwardError`.  The missing-environment-variable failure (the
`?` on `env::var`) is the spec's `MissingEnvVar`; the collaborator's
opaque errors are passed through unchanged, so they are injected into
this type directly. -/
inductive FlokiError where
  | FailedToLaunchDocker (error : String)
  | FailedToCompleteDockerCommand (error : String)
  | NoSshAuthSock
  | TmuxForwardError (msg : String)
  | MissingEnvVar (var : String)
  | CollaboratorError (msg : String)
deriving DecidableEq, Repr

/-- Splitting a character list at every occurrence of a separator
character, keeping empty pieces: the model of Rust `str::split(sep)`.
The accumulator holds the current piece reversed. -/
def splitCharAux (sep : Char) : List Char → List Char → List (List Char)
  | [], acc => [acc.reverse]
  | c :: rest, acc =>
    if c = sep then acc.reverse :: splitCharAux sep rest []
    else splitCharAux sep rest (c :: acc)

/-- Rust `str::split(sep)` collected into a list of strings. -/
def rustSplit (sep : Char) (s : String) : List String :=
  (splitCharAux sep s.data []).map (fun l => String.mk l)

/-- Word-splitting on whitespace, dropping empty pieces: the model of
Rust `str::split_whitespace` (whitespace modelled as ASCII whitespace). -/
def splitWhitespaceAux : List Char → List Char → List (List Char)
  | [], [] => []
  | [], acc => [acc.reverse]
  | c :: rest, acc =>
    if c.isWhitespace then
      match acc with
      | [] => splitWhitespaceAux rest []
      | _ => acc.reverse :: splitWhitespaceAux rest []
    else splitWhitespaceAux rest (c :: acc)

/-- Rust `str::split_whitespace` collected into a list of strings. -/
def rustSplitWhitespace (s : String) : List String :=
  (splitWhitespaceAux s.data []).map (fun l => String.mk l)

/-- Whether a Unix path string is absolute (starts with a slash). -/
def isAbsolutePath (s : String) : Bool :=
  match s.data with
  | '/' :: _ => true
  | _ => false

/-- The normalized component list of a Unix path, following Rust
`std::path::Components`: empty pieces and non-leading `.` pieces are
dropped; a relative path whose first piece is `.` keeps that leading
`CurDir` component. -/
def pathComps (s : String) : List String :=
  let raw := rustSplit '/' s
  let core := raw.filter (fun p => decide (p ≠ "") && decide (p ≠ "."))
  if isAbsolutePath s = false && raw.headD "" = "." then "." :: core else core

/-- Rendering a path back from its absoluteness flag and components,
as Rust `Path::to_str` renders the result of `Path::parent`. -/
def renderPath (abs : Bool) (comps : List String) : String :=
  let joined := String.intercalate "/" comps
  if abs then "/" ++ joined else joined

/-- Model of Rust `Path::new(s).parent().and_then(|p| p.to_str())`:
`none` when the path has no components (root or empty), otherwise the
path with its last component dropped. -/
def rustParent (s : String) : Option String :=
  match pathComps s with
  | [] => none
  | cs => some (renderPath (isAbsolutePath s) cs.dropLast)

/-- Model of Rust `Path::new(s).file_name().and_then(|f| f.to_str())`:
the last component when it is a normal component, `none` when the path
is empty, a root, or ends in `.` or `..`. -/
def rustFileName (s : String) : Option String :=
  match (pathComps s).getLast? with
  | none => none
  | some c => if c = "." ∨ c = ".." then none else some c

/-- The spec accumulator, translated from `struct DockerCommandBuilder`
in `src/command.rs`. -/
structure DockerCommandBuilder where
  volumes : List (String × String)
  environment : List (String × String)
  shell : String
  switches : List String
  image : String
deriving DecidableEq, Repr

namespace DockerCommandBuilder

/-- `DockerCommandBuilder::new(image, shell)`. -/
def new (image shell : String) : DockerCommandBuilder :=
  { volumes := [], environment := [], shell := shell, switches := [], image := image }

/-- `add_volume`: pushes a `(host, container)` pair. -/
def add_volume (b : DockerCommandBuilder) (spec : String × String) : DockerCommandBuilder :=
  { b with volumes := b.volumes ++ [spec] }

/-- `add_environment`: pushes a `(name, value)` pair. -/
def add_environment (b : DockerCommandBuilder) (spec : String × String) : DockerCommandBuilder :=
  { b with environment := b.environment ++ [spec] }

/-- `add_docker_switch`: pushes a raw flag string. -/
def add_docker_switch (b : DockerCommandBuilder) (switch : String) : DockerCommandBuilder :=
  { b with switches := b.switches ++ [switch] }

/-- `build_volume_switches`: for each `(s, d)` pushes `-v` and `s:d`. -/
def build_volume_switches (b : DockerCommandBuilder) : List String :=
  b.volumes.foldl (fun switches p => switches ++ ["-v", p.1 ++ ":" ++ p.2]) []

/-- `build_environment_switches`: for each `(var, bind)` pushes `-e` and
`var=bind`. -/
def build_environment_switches (b : DockerCommandBuilder) : List String :=
  b.environment.foldl (fun switches p => switches ++ ["-e", p.1 ++ "=" ++ p.2]) []

/-- `build_docker_switches`: each raw flag string is split on whitespace
and the resulting pieces are pushed as independent tokens. -/
def build_docker_switches (b : DockerCommandBuilder) : List String :=
  b.switches.foldl (fun switches sw => switches ++ rustSplitWhitespace sw) []

/-- The full child argument list assembled by `run`, in source order:
`run --rm -it`, volume switches, environment switches, raw-flag tokens,
image, shell, `-c`, and the inner command as one argument. -/
def run_args (b : DockerCommandBuilder) (subshell_command : String) : List String :=
  ["run", "--rm", "-it"]
    ++ b.build_volume_switches
    ++ b.build_environment_switches
    ++ b.build_docker_switches
    ++ [b.image, b.shell, "-c", subshell_command]

end DockerCommandBuilder

/-- Outcome the operating system gives to one spawn request: whether the
spawn itself failed, whether waiting on the child failed, and the child's
exit code otherwise. -/
structure OsOutcome where
  spawnError : Option String
  waitError : Option String
  exitCode : Int
deriving DecidableEq, Repr

/-- `DockerCommandBuilder::run`: assembles the argument list, asks the OS
to spawn `docker` with it (the OS is an oracle from program and argument
list to an outcome), and maps spawn failure to `FailedToLaunchDocker`,
wait failure to `FailedToCompleteDockerCommand`, and otherwise returns
the child's exit status. -/
def DockerCommandBuilder.run (b : DockerCommandBuilder) (subshell_command : String)
    (os : String → List String → OsOutcome) : Except FlokiError Int :=
  let outcome := os "docker" (b.run_args subshell_command)
  match outcome.spawnError with
  | some e => .error (.FailedToLaunchDocker e)
  | none =>
    match outcome.waitError with
    | some e => .error (.FailedToCompleteDockerCommand e)
    | none => .ok outcome.exitCode

/-- `enable_forward_ssh_agent`: reads `SSH_AUTH_SOCK` (passed here as an
`Option String`), fails with the missing-variable error when unset, adds
the environment entry and the parent-directory mount when the socket path
has a parent, and fails with `NoSshAuthSock` otherwise. -/
def enable_forward_ssh_agent (ssh_auth_sock : Option String)
    (command : DockerCommandBuilder) : Except FlokiError DockerCommandBuilder :=
  match ssh_auth_sock with
  | none => .error (.MissingEnvVar "SSH_AUTH_SOCK")
  | some agent_socket =>
    match rustParent agent_socket with
    | some dir =>
      .ok ((command.add_environment ("SSH_AUTH_SOCK", agent_socket)).add_volume (dir, dir))
    | none => .error .NoSshAuthSock

/-- `enable_forward_tmux_socket`: reads `TMUX` (passed here as an
`Option String`), splits it on `,`, takes the first field as the socket
path, and when that path has both a parent directory and a file name adds
the `TMUX_SOCKET` environment entry under the fixed `/run/tmux` directory
together with the mount of the parent directory onto `/run/tmux`. -/
def enable_forward_tmux_socket (tmux : Option String)
    (command : DockerCommandBuilder) : Except FlokiError DockerCommandBuilder :=
  match tmux with
  | none => .error (.MissingEnvVar "TMUX")
  | some tmux_env =>
    let tmux_params := rustSplit ',' tmux_env
    match tmux_params.get? 0 with
    | some path =>
      match rustParent path, rustFileName path with
      | some dir, some name =>
        .ok ((command.add_environment ("TMUX_SOCKET", "/run/tmux/" ++ name)).add_volume
          (dir, "/run/tmux"))
      | _, _ => .error (.TmuxForwardError "tmux socket in env has bad filename")
    | none => .error (.TmuxForwardError "Could not get tmux socket from environment")

/-- Handle to the nested-runtime collaborator.  Modelled from the spec:
the `dind` module is not under `src/`; the spec's collaborator contract
gives `preflight() -> Result<(), Error>`, `launch(&mut self) -> Result<(), Error>`
and a readable `name`.  The two results are carried in the handle as the
outcomes the collaborator would report. -/
structure Dind where
  name : String
  preflightResult : Except FlokiError Unit
  launchResult : Except FlokiError Unit

/-- `enable_docker_in_docker`: runs the collaborator's preflight check,
then its launch, propagating either failure verbatim; on success adds the
`--link <name>:floki-docker` raw flag and the `DOCKER_HOST` environment
entry pointing at `tcp://floki-docker:2375`. -/
def enable_docker_in_docker (command : DockerCommandBuilder) (dind : Dind) :
    Except FlokiError DockerCommandBuilder := do
  dind.preflightResult
  dind.launchResult
  pure ((command.add_docker_switch ("--link " ++ dind.name ++ ":floki-docker")).add_environment
    ("DOCKER_HOST", "tcp://floki-docker:2375"))

/-! ## Helper lemmas -/

/-- A fold that appends a block per element equals the initial value
followed by the concatenation of all blocks in order. -/
theorem foldl_append_blocks {α β : Type} (f : α → List β) (l : List α) (init : List β) :
    l.foldl (fun acc x => acc ++ f x) init = init ++ l.flatMap f := by
  induction l generalizing init with
  | nil => simp
  | cons x xs ih => simp [List.foldl_cons, ih]

/-- `build_volume_switches` in closed form. -/
theorem build_volume_switches_eq (b : DockerCommandBuilder) :
    b.build_volume_switches = b.volumes.flatMap (fun p => ["-v", p.1 ++ ":" ++ p.2]) := by
  unfold DockerCommandBuilder.build_volume_switches
  rw [foldl_append_blocks]
  simp

/-- `build_environment_switches` in closed form. -/
theorem build_environment_switches_eq (b : DockerCommandBuilder) :
    b.build_environment_switches = b.environment.flatMap (fun p => ["-e", p.1 ++ "=" ++ p.2]) := by
  unfold DockerCommandBuilder.build_environment_switches
  rw [foldl_append_blocks]
  simp

/-- `build_docker_switches` in closed form. -/
theorem build_docker_switches_eq (b : DockerCommandBuilder) :
    b.build_docker_switches = b.switches.flatMap rustSplitWhitespace := by
  unfold DockerCommandBuilder.build_docker_switches
  rw [foldl_append_blocks]
  simp

/-- Word splitting of a list with no whitespace yields the single word
formed by the pending accumulator followed by the list. -/
theorem splitWhitespaceAux_no_ws (cs : List Char) (acc : List Char)
    (hne : cs ≠ [] ∨ acc ≠ []) (h : ∀ c ∈ cs, c.isWhitespace = false) :
    splitWhitespaceAux cs acc = [acc.reverse ++ cs] := by
  induction cs generalizing acc with
  | nil =>
    rcases hne with hc | ha
    · exact absurd rfl hc
    · cases acc with
      | nil => exact absurd rfl ha
      | cons a as => simp [splitWhitespaceAux]
  | cons c rest ih =>
    have hc : c.isWhitespace = false := h c (List.mem_cons_self c rest)
    have hrest : ∀ x ∈ rest, x.isWhitespace = false := fun x hx => h x (List.mem_cons_of_mem c hx)
    simp only [splitWhitespaceAux, hc, Bool.false_eq_true, if_false]
    rw [ih (c :: acc) (Or.inr (by simp)) hrest]
    simp

/-- A nonempty raw flag string with no whitespace splits into exactly
itself. -/
theorem rustSplitWhitespace_single (s : String) (h1 : s ≠ "")
    (h2 : ∀ c ∈ s.data, c.isWhitespace = false) :
    rustSplitWhitespace s = [s] := by
  have hd : s.data ≠ [] := by
    intro hnil
    apply h1
    cases s with
    | mk data => simp at hnil; simp [hnil]
  unfold rustSplitWhitespace
  rw [splitWhitespaceAux_no_ws s.data [] (Or.inl hd) h2]
  cases s with
  | mk data => simp

/-- `split` on a character never yields an empty field list. -/
theorem splitCharAux_ne_nil (sep : Char) (cs : List Char) (acc : List Char) :
    splitCharAux sep cs acc ≠ [] := by
  induction cs generalizing acc with
  | nil => simp [splitCharAux]
  | cons c rest ih =>
    simp only [splitCharAux]
    by_cases hc : c = sep
    · simp [hc]
    · simpa [hc] using ih (c :: acc)

/-- Rust `split` always yields at least one field. -/
theorem rustSplit_ne_nil (sep : Char) (s : String) : rustSplit sep s ≠ [] := by
  unfold rustSplit
  simpa using splitCharAux_ne_nil sep s.data []

/-! ## Claims -/

/-- C1: for every spec and inner command, `run` assembles the child
argument list as `run --rm -it`, then one `-v host:container` pair per
mount in insertion order, then one `-e name=value` pair per environment
entry in insertion order, then all raw-flag tokens in insertion order,
then the image, the shell, the literal `-c`, and the inner command as a
single unsplit argument. -/
theorem run_args_layout (b : DockerCommandBuilder) (cmd : String) :
    b.run_args cmd =
      ["run", "--rm", "-it"]
        ++ b.volumes.flatMap (fun p => ["-v", p.1 ++ ":" ++ p.2])
        ++ b.environment.flatMap (fun p => ["-e", p.1 ++ "=" ++ p.2])
        ++ b.switches.flatMap rustSplitWhitespace
        ++ [b.image, b.shell, "-c", cmd] := by
  unfold DockerCommandBuilder.run_args
  rw [build_volume_switches_eq, build_environment_switches_eq, build_docker_switches_eq]

/-- C2 counterexample: with both image and shell empty, `run` does not
reject the invocation: it assembles the full argument list, with the
empty image and shell in their positions, hands it to the OS, and when
the OS spawn and wait succeed it returns the child's exit status. -/
theorem run_empty_image_shell_cex :
    (DockerCommandBuilder.new "" "").run "echo hi"
        (fun _ _ => { spawnError := none, waitError := none, exitCode := 0 }) = .ok 0
    ∧ (DockerCommandBuilder.new "" "").run_args "echo hi"
        = ["run", "--rm", "-it", "", "", "-c", "echo hi"] :=
  ⟨rfl, rfl⟩

/-- C2 amended: `run` performs no validation of image or shell.  For
every spec — empty image or shell included — it assembles the argument
list and proceeds to spawn; whenever the OS reports a successful spawn
and wait, `run` returns the child's exit status rather than an error. -/
theorem run_spawns_without_validation (b : DockerCommandBuilder) (cmd : String)
    (os : String → List String → OsOutcome)
    (h1 : (os "docker" (b.run_args cmd)).spawnError = none)
    (h2 : (os "docker" (b.run_args cmd)).waitError = none) :
    b.run cmd os = .ok (os "docker" (b.run_args cmd)).exitCode := by
  unfold DockerCommandBuilder.run
  simp only [h1, h2]

/-- C2 amended witness: the empty-image, empty-shell spec with an OS that
spawns and waits successfully. -/
theorem run_spawns_without_validation_witness :
    (((fun _ _ => { spawnError := none, waitError := none, exitCode := 0 }) :
        String → List String → OsOutcome) "docker"
          ((DockerCommandBuilder.new "" "").run_args "echo hi")).spawnError = none
    ∧ (((fun _ _ => { spawnError := none, waitError := none, exitCode := 0 }) :
        String → List String → OsOutcome) "docker"
          ((DockerCommandBuilder.new "" "").run_args "echo hi")).waitError = none
    ∧ (DockerCommandBuilder.new "" "").run "echo hi"
        (fun _ _ => { spawnError := none, waitError := none, exitCode := 0 })
        = .ok (((fun _ _ => { spawnError := none, waitError := none, exitCode := 0 }) :
            String → List String → OsOutcome) "docker"
              ((DockerCommandBuilder.new "" "").run_args "echo hi")).exitCode :=
  ⟨rfl, rfl, run_spawns_without_validation (DockerCommandBuilder.new "" "") "echo hi"
    (fun _ _ => { spawnError := none, waitError := none, exitCode := 0 }) rfl rfl⟩

/-- C6: every raw flag string renders as its whitespace-separated tokens
as independent arguments: adding a raw flag appends exactly its split
tokens, the flag `--a=1 --b=2` renders as the two tokens `--a=1` and
`--b=2`, and a nonempty flag with no internal whitespace renders as
exactly one token. -/
theorem raw_flag_tokens (b : DockerCommandBuilder) (s t : String) (h1 : t ≠ "")
    (h2 : ∀ c ∈ t.data, c.isWhitespace = false) :
    (b.add_docker_switch s).build_docker_switches
        = b.build_docker_switches ++ rustSplitWhitespace s
    ∧ rustSplitWhitespace "--a=1 --b=2" = ["--a=1", "--b=2"]
    ∧ rustSplitWhitespace t = [t] := by
  refine ⟨?_, by rfl, rustSplitWhitespace_single t h1 h2⟩
  rw [build_docker_switches_eq, build_docker_switches_eq]
  simp [DockerCommandBuilder.add_docker_switch]

/-- C6 witness: a two-token raw flag and a whitespace-free raw flag on a
concrete spec. -/
theorem raw_flag_tokens_witness :
    ("--privileged" ≠ "" ∧ ∀ c ∈ "--privileged".data, c.isWhitespace = false)
    ∧ (((DockerCommandBuilder.new "img" "sh").add_docker_switch "--a=1 --b=2").build_docker_switches
          = (DockerCommandBuilder.new "img" "sh").build_docker_switches
              ++ rustSplitWhitespace "--a=1 --b=2"
        ∧ rustSplitWhitespace "--a=1 --b=2" = ["--a=1", "--b=2"]
        ∧ rustSplitWhitespace "--privileged" = ["--privileged"]) :=
  ⟨⟨by decide, by decide⟩,
    raw_flag_tokens (DockerCommandBuilder.new "img" "sh") "--a=1 --b=2" "--privileged"
      (by decide) (by decide)⟩

/-- C3: with the SSH-agent variable set to a path that has a parent
directory, the forwarder succeeds and returns the input spec with
exactly one added environment entry mapping `SSH_AUTH_SOCK` to the
unchanged socket path and exactly one added mount of the parent
directory to the identical container path; with a path that has no
parent it fails with the configuration error `NoSshAuthSock`. -/
theorem ssh_agent_forwarding (b : DockerCommandBuilder) (s t d : String)
    (hp : rustParent s = some d) (hn : rustParent t = none) :
    enable_forward_ssh_agent (some s) b =
      .ok { b with environment := b.environment ++ [("SSH_AUTH_SOCK", s)],
                   volumes := b.volumes ++ [(d, d)] }
    ∧ enable_forward_ssh_agent (some t) b = .error FlokiError.NoSshAuthSock := by
  constructor
  · simp [enable_forward_ssh_agent, hp, DockerCommandBuilder.add_environment,
      DockerCommandBuilder.add_volume]
  · simp [enable_forward_ssh_agent, hn]

/-- C3 witness: `SSH_AUTH_SOCK=/tmp/ssh-xyz/agent.sock` succeeds with the
two entries; `SSH_AUTH_SOCK=/` fails. -/
theorem ssh_agent_forwarding_witness :
    (rustParent "/tmp/ssh-xyz/agent.sock" = some "/tmp/ssh-xyz" ∧ rustParent "/" = none)
    ∧ (enable_forward_ssh_agent (some "/tmp/ssh-xyz/agent.sock")
          (DockerCommandBuilder.new "img" "sh") =
        .ok { DockerCommandBuilder.new "img" "sh" with
                environment := (DockerCommandBuilder.new "img" "sh").environment
                  ++ [("SSH_AUTH_SOCK", "/tmp/ssh-xyz/agent.sock")],
                volumes := (DockerCommandBuilder.new "img" "sh").volumes
                  ++ [("/tmp/ssh-xyz", "/tmp/ssh-xyz")] }
      ∧ enable_forward_ssh_agent (some "/") (DockerCommandBuilder.new "img" "sh")
          = .error FlokiError.NoSshAuthSock) :=
  ⟨⟨by decide, by decide⟩,
    ssh_agent_forwarding (DockerCommandBuilder.new "img" "sh")
      "/tmp/ssh-xyz/agent.sock" "/" "/tmp/ssh-xyz" (by decide) (by decide)⟩

/-- C4: with the multiplexer variable set and its first comma-separated
field having both a parent directory and a file name, the forwarder
succeeds and returns the input spec with exactly one added mount of the
containing directory to the fixed path `/run/tmux` and exactly one added
environment entry whose value is the fixed path joined with the socket
file name. -/
theorem tmux_socket_forwarding (b : DockerCommandBuilder) (s dir name : String)
    (hp : rustParent ((rustSplit ',' s).headD "") = some dir)
    (hf : rustFileName ((rustSplit ',' s).headD "") = some name) :
    enable_forward_tmux_socket (some s) b =
      .ok { b with environment := b.environment ++ [("TMUX_SOCKET", "/run/tmux/" ++ name)],
                   volumes := b.volumes ++ [(dir, "/run/tmux")] } := by
  obtain ⟨hd, tl, heq⟩ := List.exists_cons_of_ne_nil (rustSplit_ne_nil ',' s)
  rw [heq] at hp hf
  simp only [List.headD_cons] at hp hf
  simp [enable_forward_tmux_socket, heq, hp, hf, DockerCommandBuilder.add_environment,
    DockerCommandBuilder.add_volume]

/-- C4 witness: `TMUX=/tmp/tmux-1000/default,1234,0` yields the mount
`(/tmp/tmux-1000, /run/tmux)` and the environment value
`/run/tmux/default`. -/
theorem tmux_socket_forwarding_witness :
    (rustParent ((rustSplit ',' "/tmp/tmux-1000/default,1234,0").headD "") = some "/tmp/tmux-1000"
      ∧ rustFileName ((rustSplit ',' "/tmp/tmux-1000/default,1234,0").headD "") = some "default")
    ∧ enable_forward_tmux_socket (some "/tmp/tmux-1000/default,1234,0")
        (DockerCommandBuilder.new "img" "sh") =
      .ok { DockerCommandBuilder.new "img" "sh" with
              environment := (DockerCommandBuilder.new "img" "sh").environment
                ++ [("TMUX_SOCKET", "/run/tmux/" ++ "default")],
              volumes := (DockerCommandBuilder.new "img" "sh").volumes
                ++ [("/tmp/tmux-1000", "/run/tmux")] } :=
  ⟨⟨by decide, by decide⟩,
    tmux_socket_forwarding (DockerCommandBuilder.new "img" "sh")
      "/tmp/tmux-1000/default,1234,0" "/tmp/tmux-1000" "default" (by decide) (by decide)⟩

/-- C7: with the SSH-agent variable (respectively the multiplexer
variable) unset, the corresponding forwarder fails with the
missing-environment-variable error and returns no mutated spec. -/
theorem missing_env_var (b : DockerCommandBuilder) :
    enable_forward_ssh_agent none b = .error (FlokiError.MissingEnvVar "SSH_AUTH_SOCK")
    ∧ enable_forward_tmux_socket none b = .error (FlokiError.MissingEnvVar "TMUX") :=
  ⟨rfl, rfl⟩

/-- C8: the multiplexer forwarder takes exactly the first comma-separated
field as the socket path and fails with the forward error whenever that
field lacks a parent directory or lacks a file name. -/
theorem tmux_bad_socket (b : DockerCommandBuilder) (s : String)
    (h : rustParent ((rustSplit ',' s).headD "") = none
      ∨ rustFileName ((rustSplit ',' s).headD "") = none) :
    enable_forward_tmux_socket (some s) b =
      .error (FlokiError.TmuxForwardError "tmux socket in env has bad filename") := by
  obtain ⟨hd, tl, heq⟩ := List.exists_cons_of_ne_nil (rustSplit_ne_nil ',' s)
  rw [heq] at h
  simp only [List.headD_cons] at h
  rcases h with hp | hf
  · cases hname : rustFileName hd <;>
      simp [enable_forward_tmux_socket, heq, hp, hname]
  · cases hdir : rustParent hd <;>
      simp [enable_forward_tmux_socket, heq, hdir, hf]

/-- C8 witness: `TMUX=/,1234,0` has first field `/`, which has neither
parent nor file name, and the forwarder fails with the forward error. -/
theorem tmux_bad_socket_witness :
    (rustParent ((rustSplit ',' "/,1234,0").headD "") = none
      ∨ rustFileName ((rustSplit ',' "/,1234,0").headD "") = none)
    ∧ enable_forward_tmux_socket (some "/,1234,0") (DockerCommandBuilder.new "img" "sh") =
        .error (FlokiError.TmuxForwardError "tmux socket in env has bad filename") :=
  ⟨Or.inl (by decide),
    tmux_bad_socket (DockerCommandBuilder.new "img" "sh") "/,1234,0" (Or.inl (by decide))⟩

/-- C10: splitting any string on `,` always yields at least one field,
so the branch for a missing first field (the error with message
`Could not get tmux socket from environment`) is unreachable: for every
set value of the multiplexer variable the forwarder either succeeds or
fails with the bad-filename forward error. -/
theorem tmux_first_field_always_present (b : DockerCommandBuilder) (s : String) :
    (∃ x, (rustSplit ',' s).get? 0 = some x)
    ∧ ((∃ b2, enable_forward_tmux_socket (some s) b = .ok b2)
      ∨ enable_forward_tmux_socket (some s) b =
          .error (FlokiError.TmuxForwardError "tmux socket in env has bad filename")) := by
  obtain ⟨hd, tl, heq⟩ := List.exists_cons_of_ne_nil (rustSplit_ne_nil ',' s)
  constructor
  · exact ⟨hd, by rw [heq]; rfl⟩
  · cases hdir : rustParent hd with
    | none =>
      right
      cases hname : rustFileName hd <;>
        simp [enable_forward_tmux_socket, heq, hdir, hname]
    | some dir =>
      cases hname : rustFileName hd with
      | none =>
        right
        simp [enable_forward_tmux_socket, heq, hdir, hname]
      | some name =>
        left
        refine ⟨(b.add_environment ("TMUX_SOCKET", "/run/tmux/" ++ name)).add_volume
          (dir, "/run/tmux"), ?_⟩
        simp [enable_forward_tmux_socket, heq, hdir, hname]

/-- C5: for the nested-runtime forwarder, a preflight failure is passed
through verbatim with no spec produced; a launch failure after a
successful preflight is passed through verbatim with no spec produced
(no partial link or environment entries); and when both succeed the
result is the input spec plus exactly one raw flag linking to the
collaborator's named container under the fixed alias `floki-docker` and
exactly one environment entry `DOCKER_HOST=tcp://floki-docker:2375`. -/
theorem dind_forwarding (b : DockerCommandBuilder) (d₁ d₂ d₃ : Dind) (e₁ e₂ : FlokiError)
    (h1 : d₁.preflightResult = .error e₁)
    (h2p : d₂.preflightResult = .ok ()) (h2l : d₂.launchResult = .error e₂)
    (h3p : d₃.preflightResult = .ok ()) (h3l : d₃.launchResult = .ok ()) :
    enable_docker_in_docker b d₁ = .error e₁
    ∧ enable_docker_in_docker b d₂ = .error e₂
    ∧ enable_docker_in_docker b d₃ =
        .ok { b with switches := b.switches ++ ["--link " ++ d₃.name ++ ":floki-docker"],
                     environment := b.environment
                       ++ [("DOCKER_HOST", "tcp://floki-docker:2375")] } := by
  refine ⟨?_, ?_, ?_⟩
  · simp [enable_docker_in_docker, h1, Bind.bind, Except.bind]
  · simp [enable_docker_in_docker, h2p, h2l, Bind.bind, Except.bind]
  · simp [enable_docker_in_docker, h3p, h3l, Bind.bind, Except.bind, Pure.pure, Except.pure,
      DockerCommandBuilder.add_docker_switch, DockerCommandBuilder.add_environment]

/-- C5 witness: three concrete collaborator handles, one failing
preflight, one failing launch, one succeeding throughout. -/
theorem dind_forwarding_witness :
    ((Dind.mk "floki-dind" (.error (FlokiError.CollaboratorError "no privilege")) (.ok ())).preflightResult
        = .error (FlokiError.CollaboratorError "no privilege")
      ∧ (Dind.mk "floki-dind" (.ok ()) (.error (FlokiError.CollaboratorError "launch failed"))).preflightResult
        = .ok ()
      ∧ (Dind.mk "floki-dind" (.ok ()) (.error (FlokiError.CollaboratorError "launch failed"))).launchResult
        = .error (FlokiError.CollaboratorError "launch failed")
      ∧ (Dind.mk "floki-dind" (.ok ()) (.ok ())).preflightResult = .ok ()
      ∧ (Dind.mk "floki-dind" (.ok ()) (.ok ())).launchResult = .ok ())
    ∧ (enable_docker_in_docker (DockerCommandBuilder.new "img" "sh")
          (Dind.mk "floki-dind" (.error (FlokiError.CollaboratorError "no privilege")) (.ok ()))
        = .error (FlokiError.CollaboratorError "no privilege")
      ∧ enable_docker_in_docker (DockerCommandBuilder.new "img" "sh")
          (Dind.mk "floki-dind" (.ok ()) (.error (FlokiError.CollaboratorError "launch failed")))
        = .error (FlokiError.CollaboratorError "launch failed")
      ∧ enable_docker_in_docker (DockerCommandBuilder.new "img" "sh")
          (Dind.mk "floki-dind" (.ok ()) (.ok ())) =
        .ok { DockerCommandBuilder.new "img" "sh" with
                switches := (DockerCommandBuilder.new "img" "sh").switches
                  ++ ["--link " ++ (Dind.mk "floki-dind" (.ok ()) (.ok ())).name ++ ":floki-docker"],
                environment := (DockerCommandBuilder.new "img" "sh").environment
                  ++ [("DOCKER_HOST", "tcp://floki-docker:2375")] }) :=
  ⟨⟨rfl, rfl, rfl, rfl, rfl⟩,
    dind_forwarding (DockerCommandBuilder.new "img" "sh")
      (Dind.mk "floki-dind" (.error (FlokiError.CollaboratorError "no privilege")) (.ok ()))
      (Dind.mk "floki-dind" (.ok ()) (.error (FlokiError.CollaboratorError "launch failed")))
      (Dind.mk "floki-dind" (.ok ()) (.ok ()))
      (FlokiError.CollaboratorError "no privilege") (FlokiError.CollaboratorError "launch failed")
      rfl rfl rfl rfl rfl⟩

/-- C9: applying a forwarder twice in succession, when its environment
preconditions hold, yields a spec containing two duplicate copies of the
forwarder's entries: the SSH forwarder duplicates its environment entry
and mount, the multiplexer forwarder duplicates its environment entry
and mount, and the nested-runtime forwarder duplicates its link raw flag
and environment entry; nothing is deduplicated. -/
theorem forwarders_duplicate_on_reapplication (b : DockerCommandBuilder)
    (s d t td tn : String) (dd : Dind)
    (hp : rustParent s = some d)
    (htp : rustParent ((rustSplit ',' t).headD "") = some td)
    (htf : rustFileName ((rustSplit ',' t).headD "") = some tn)
    (hdp : dd.preflightResult = .ok ()) (hdl : dd.launchResult = .ok ()) :
    (enable_forward_ssh_agent (some s) b >>= enable_forward_ssh_agent (some s)) =
      .ok { b with environment := b.environment
                     ++ [("SSH_AUTH_SOCK", s), ("SSH_AUTH_SOCK", s)],
                   volumes := b.volumes ++ [(d, d), (d, d)] }
    ∧ (enable_forward_tmux_socket (some t) b >>= enable_forward_tmux_socket (some t)) =
      .ok { b with environment := b.environment
                     ++ [("TMUX_SOCKET", "/run/tmux/" ++ tn), ("TMUX_SOCKET", "/run/tmux/" ++ tn)],
                   volumes := b.volumes ++ [(td, "/run/tmux"), (td, "/run/tmux")] }
    ∧ (enable_docker_in_docker b dd >>= fun c => enable_docker_in_docker c dd) =
      .ok { b with switches := b.switches
                     ++ ["--link " ++ dd.name ++ ":floki-docker",
                         "--link " ++ dd.name ++ ":floki-docker"],
                   environment := b.environment
                     ++ [("DOCKER_HOST", "tcp://floki-docker:2375"),
                         ("DOCKER_HOST", "tcp://floki-docker:2375")] } := by
  refine ⟨?_, ?_, ?_⟩
  · simp [enable_forward_ssh_agent, hp, DockerCommandBuilder.add_environment,
      DockerCommandBuilder.add_volume, Bind.bind, Except.bind]
  · obtain ⟨hd, tl, heq⟩ := List.exists_cons_of_ne_nil (rustSplit_ne_nil ',' t)
    rw [heq] at htp htf
    simp only [List.headD_cons] at htp htf
    simp [enable_forward_tmux_socket, heq, htp, htf, DockerCommandBuilder.add_environment,
      DockerCommandBuilder.add_volume, Bind.bind, Except.bind]
  · simp [enable_docker_in_docker, hdp, hdl, Bind.bind, Except.bind, Pure.pure, Except.pure,
      DockerCommandBuilder.add_docker_switch, DockerCommandBuilder.add_environment]

/-- C9 witness: the three forwarders each applied twice to a concrete
spec under concrete satisfied preconditions. -/
theorem forwarders_duplicate_on_reapplication_witness :
    (rustParent "/tmp/ssh-xyz/agent.sock" = some "/tmp/ssh-xyz"
      ∧ rustParent ((rustSplit ',' "/tmp/tmux-1000/default,1234,0").headD "") = some "/tmp/tmux-1000"
      ∧ rustFileName ((rustSplit ',' "/tmp/tmux-1000/default,1234,0").headD "") = some "default"
      ∧ (Dind.mk "floki-dind" (.ok ()) (.ok ())).preflightResult = .ok ()
      ∧ (Dind.mk "floki-dind" (.ok ()) (.ok ())).launchResult = .ok ())
    ∧ ((enable_forward_ssh_agent (some "/tmp/ssh-xyz/agent.sock") (DockerCommandBuilder.new "img" "sh")
          >>= enable_forward_ssh_agent (some "/tmp/ssh-xyz/agent.sock")) =
        .ok { DockerCommandBuilder.new "img" "sh" with
                environment := (DockerCommandBuilder.new "img" "sh").environment
                  ++ [("SSH_AUTH_SOCK", "/tmp/ssh-xyz/agent.sock"),
                      ("SSH_AUTH_SOCK", "/tmp/ssh-xyz/agent.sock")],
                volumes := (DockerCommandBuilder.new "img" "sh").volumes
                  ++ [("/tmp/ssh-xyz", "/tmp/ssh-xyz"), ("/tmp/ssh-xyz", "/tmp/ssh-xyz")] }
      ∧ (enable_forward_tmux_socket (some "/tmp/tmux-1000/default,1234,0")
            (DockerCommandBuilder.new "img" "sh")
          >>= enable_forward_tmux_socket (some "/tmp/tmux-1000/default,1234,0")) =
        .ok { DockerCommandBuilder.new "img" "sh" with
                environment := (DockerCommandBuilder.new "img" "sh").environment
                  ++ [("TMUX_SOCKET", "/run/tmux/" ++ "default"),
                      ("TMUX_SOCKET", "/run/tmux/" ++ "default")],
                volumes := (DockerCommandBuilder.new "img" "sh").volumes
                  ++ [("/tmp/tmux-1000", "/run/tmux"), ("/tmp/tmux-1000", "/run/tmux")] }
      ∧ (enable_docker_in_docker (DockerCommandBuilder.new "img" "sh")
            (Dind.mk "floki-dind" (.ok ()) (.ok ()))
          >>= fun c => enable_docker_in_docker c (Dind.mk "floki-dind" (.ok ()) (.ok ()))) =
        .ok { DockerCommandBuilder.new "img" "sh" with
                switches := (DockerCommandBuilder.new "img" "sh").switches
                  ++ ["--link " ++ (Dind.mk "floki-dind" (.ok ()) (.ok ())).name ++ ":floki-docker",
                      "--link " ++ (Dind.mk "floki-dind" (.ok ()) (.ok ())).name ++ ":floki-docker"],
                environment := (DockerCommandBuilder.new "img" "sh").environment
                  ++ [("DOCKER_HOST", "tcp://floki-docker:2375"),
                      ("DOCKER_HOST", "tcp://floki-docker:2375")] }) :=
  ⟨⟨by decide, by decide, by decide, rfl, rfl⟩,
    forwarders_duplicate_on_reapplication (DockerCommandBuilder.new "img" "sh")
      "/tmp/ssh-xyz/agent.sock" "/tmp/ssh-xyz" "/tmp/tmux-1000/default,1234,0"
      "/tmp/tmux-1000" "default" (Dind.mk "floki-dind" (.ok ()) (.ok ()))
      (by decide) (by decide) (by decide) rfl rfl⟩

end Floki
